import Mathlib

/-
Shallow embedding of the serveradmin creation pipeline, audit layer, API
boundary and schema-registry views, translated from:
  serveradmin/dataset/create.py
  serveradmin/api/views.py
  serveradmin/serverdb/views.py
Modules of the repository that are referenced but not among the provided
sources (dataset/validation.py, dataset/typecast.py, dataset/exceptions.py,
adminapi) are modelled from the spec where they decide a claim; such
definitions carry a doc comment starting with `Modelled from the spec:`.
-/

namespace Serveradmin

/-- Dynamically typed attribute values, as in the spec's data model:
strings, numbers, ip addresses (abstracted to their numeric form) and
multi-value sequences. -/
inductive Value where
  | str (s : String)
  | num (n : Int)
  | ip (a : Nat)
  | vlist (vs : List Value)

mutual

/-- Deep equality on values, mirroring Python `==`. -/
def Value.beq : Value → Value → Bool
  | .str x, .str y => x == y
  | .num x, .num y => x == y
  | .ip x, .ip y => x == y
  | .vlist x, .vlist y => Value.beqList x y
  | _, _ => false

/-- Elementwise equality of value sequences. -/
def Value.beqList : List Value → List Value → Bool
  | [], [] => true
  | a :: as, b :: bs => Value.beq a b && Value.beqList as bs
  | _, _ => false

end

instance : BEq Value := ⟨Value.beq⟩

/-- Python dict of attribute name to value, as an insertion-ordered
association list with unique keys maintained by the operations. -/
abbrev AttrDict := List (String × Value)

/-- Dictionary read: `d[k]` / `d.get(k)`. -/
def dget : AttrDict → String → Option Value
  | [], _ => none
  | e :: rest, k => if e.1 = k then some e.2 else dget rest k

/-- Dictionary membership: `k in d`. -/
def dhas (d : AttrDict) (k : String) : Bool := (dget d k).isSome

/-- Read `d[k]` where the key is known to be present; the default is never
reached on the guarded paths that use it. -/
def dgetD (d : AttrDict) (k : String) : Value := (dget d k).getD (.str "")

/-- Dictionary write `d[k] = v`: replace in place, or append when absent. -/
def dset : AttrDict → String → Value → AttrDict
  | [], k, v => [(k, v)]
  | e :: rest, k, v => if e.1 = k then (k, v) :: rest else e :: dset rest k v

/-- Dictionary deletion `del d[k]` (identity when the key is absent, which
matches the `if key in d: del d[key]` use sites). -/
def derase : AttrDict → String → AttrDict
  | [], _ => []
  | e :: rest, k => if e.1 = k then derase rest k else e :: derase rest k

theorem dget_dset_self (d : AttrDict) (k : String) (v : Value) :
    dget (dset d k v) k = some v := by
  induction d with
  | nil => simp [dset, dget]
  | cons e rest ih =>
    by_cases h : e.1 = k
    · simp [dset, dget, h]
    · simp [dset, dget, h, ih]

theorem dget_dset_ne (d : AttrDict) (k k' : String) (v : Value) (h : k' ≠ k) :
    dget (dset d k v) k' = dget d k' := by
  have hkk : ¬(k = k') := Ne.symm h
  induction d with
  | nil => simp [dset, dget, hkk]
  | cons e rest ih =>
    by_cases he : e.1 = k
    · simp [dset, dget, he, hkk]
    · by_cases he' : e.1 = k'
      · have : ¬(k' = k) := h
        simp [dset, dget, he, he', this]
      · simp [dset, dget, he, he', ih]

theorem dget_derase_self (d : AttrDict) (k : String) :
    dget (derase d k) k = none := by
  induction d with
  | nil => simp [derase, dget]
  | cons e rest ih =>
    by_cases h : e.1 = k
    · simp [derase, h, ih]
    · simp [derase, dget, h, ih]

theorem dget_derase_ne (d : AttrDict) (k k' : String) (h : k' ≠ k) :
    dget (derase d k) k' = dget d k' := by
  have hkk : ¬(k = k') := Ne.symm h
  induction d with
  | nil => simp [derase]
  | cons e rest ih =>
    by_cases he : e.1 = k
    · simp [derase, dget, he, hkk, ih]
    · by_cases he' : e.1 = k'
      · have : ¬(k' = k) := h
        simp [derase, dget, he, he', this]
      · simp [derase, dget, he, he', ih]

theorem derase_dset_same (d : AttrDict) (k : String) (v : Value) :
    derase (dset d k v) k = derase d k := by
  induction d with
  | nil => simp [dset, derase]
  | cons e rest ih =>
    by_cases h : e.1 = k
    · simp [dset, derase, h]
    · simp [dset, derase, h, ih]

theorem derase_dset_ne (d : AttrDict) (k k' : String) (v : Value) (h : k ≠ k') :
    derase (dset d k v) k' = dset (derase d k') k v := by
  induction d with
  | nil => simp [dset, derase, h]
  | cons e rest ih =>
    by_cases he : e.1 = k
    · have hne : ¬(k = k') := h
      simp [dset, derase, he, hne, ih]
    · by_cases he' : e.1 = k'
      · have hne : ¬(k' = k) := Ne.symm h
        simp [dset, derase, he, he', hne, ih]
      · simp [dset, derase, he, he', ih]

theorem derase_comm (d : AttrDict) (k k' : String) :
    derase (derase d k) k' = derase (derase d k') k := by
  induction d with
  | nil => simp [derase]
  | cons e rest ih =>
    by_cases h : e.1 = k
    · by_cases h' : e.1 = k'
      · have hkk : k = k' := h.symm.trans h'
        subst hkk
        simp [derase, h, ih]
      · have hne : ¬(k = k') := fun hh => h' (hh ▸ h)
        simp [derase, h, h', hne, ih]
    · by_cases h' : e.1 = k'
      · have hne : ¬(k' = k) := fun hh => h (hh ▸ h')
        simp [derase, h, h', hne, ih]
      · simp [derase, h, h', ih]

theorem derase_idem (d : AttrDict) (k : String) :
    derase (derase d k) k = derase d k := by
  induction d with
  | nil => simp [derase]
  | cons e rest ih =>
    by_cases h : e.1 = k
    · simp [derase, h, ih]
    · simp [derase, h, ih]

theorem mem_keys_iff_dhas (d : AttrDict) (k : String) :
    k ∈ d.map (fun e => e.1) ↔ dhas d k = true := by
  induction d with
  | nil => simp [dhas, dget]
  | cons e rest ih =>
    by_cases h : e.1 = k
    · simp [dhas, dget, h]
    · simp [dhas, dget, h, Ne.symm h, ih]

/-- Schema: a globally defined attribute (`lookups.attributes` entries):
name (`pk`), declared type (as its string tag) and the `multi` flag. -/
structure Attribute where
  pk : String
  type : String
  multi : Bool
deriving DecidableEq

/-- Per-servertype constraints on one attribute
(`lookups.stype_attrs[(servertype.pk, attribute.pk)]`): `required`,
the untyped `default` string (None or a string), and the compiled
`regexp`, abstracted to its match predicate. -/
structure STypeAttr where
  required : Bool
  default : Option String
  regexp : Option (String → Bool)

/-- A servertype: its name and the ordered attributes declared on it. -/
structure ServerType where
  pk : String
  attributes : List Attribute

/-- One row of the IP-range table (`IPRange.objects`), with addresses
abstracted to naturals and its segment name. -/
structure IPRange where
  low : Nat
  high : Nat
  segment : String

/-- The environment a `create_server` call runs against: the schema
registry (`lookups`), the IP-range table, and the engines imported from
modules that are not among the provided sources (`typecast`,
`check_attribute_type`, `ip_address` parsing), kept abstract as functions. -/
structure Env where
  servertypes : List (String × ServerType)
  stypeAttrs : String → String → STypeAttr
  ipRanges : List IPRange
  typecastFS : Attribute → String → Value
  checkType : String → Value → Bool
  parseIp : Value → Option Nat

/-- The error taxonomy visible to the embedded creation pipeline. -/
inductive Err where
  | commitError (msg : String)
  | typeError (attr : String)
  | validationError (vreg vreq vattr : List String)
  | valueError
  | dbError

/-- Modelled from the spec: `check_attribute_type` lives in
`serveradmin/dataset/validation.py`, which is not among the provided
sources. Per the spec (§4.2, §7) it checks a value against the attribute's
declared type and fails with a type error otherwise; the decision itself is
kept abstract as `env.checkType`. -/
def check_attribute_type (env : Env) (attr : String) (v : Value) : Except Err Unit :=
  if env.checkType attr v then .ok () else .error (.typeError attr)

/-- Modelled from the spec: `handle_violations` lives in
`serveradmin/dataset/validation.py`, which is not among the provided
sources. Per the spec (§4.3): when `skip_validation` is false and any
violation list is non-empty it fails with a structured `ValidationError`
naming every offending attribute per category; when true, all violations
are silently accepted. -/
def handle_violations (skip_validation : Bool)
    (violations_regexp violations_required violations_attribs : List String) :
    Except Err Unit :=
  if skip_validation then .ok ()
  else if violations_regexp = [] ∧ violations_required = [] ∧ violations_attribs = []
  then .ok ()
  else .error (.validationError violations_regexp violations_required violations_attribs)

/-- Python `str.split(',')` on the character level (left to right;
`""` yields `[""]`, empty pieces are kept). -/
def splitCommaCh : List Char → List String
  | [] => [""]
  | c :: rest =>
    if c = ',' then "" :: splitCommaCh rest
    else
      match splitCommaCh rest with
      | h :: t => (String.singleton c ++ h) :: t
      | [] => [String.singleton c]

/-- Python `value.split(',')`. -/
def splitComma (s : String) : List String := splitCommaCh s.data

/-- Function `_type_cast_default` (create.py lines 196-203): for a multi attribute
the default string is literally split on commas and each piece is
type-cast with `force_single=True`; for a scalar attribute the whole
string is type-cast once. -/
def type_cast_default (env : Env) (a : Attribute) (value : String) : Value :=
  if a.multi then
    .vlist ((splitComma value).map (fun v => env.typecastFS a v))
  else env.typecastFS a value

/-- Test `stype_attr.default in ('', None)`. -/
def defaultEmpty : Option String → Bool
  | none => true
  | some s => s = ""

/-- The default string when known non-empty. -/
def getDef : Option String → String := fun d => d.getD ""

/-- Conversion `unicode(val)` as used by the multi-value regexp check; the rendering
of non-string values is a determinization of Python's. -/
def toUnicode : Value → String
  | .str s => s
  | .num n => toString n
  | .ip a => toString a
  | .vlist _ => ""

/-- The raw string of a value (regexp matching on scalar string values). -/
def asStr : Value → String
  | .str s => s
  | _ => ""

/-- Iteration over a multi value (`for val in value`). A string iterates
per character as in Python; other scalars are rejected earlier by
`check_attribute_type` on the reachable paths. -/
def asList : Value → List Value
  | .vlist vs => vs
  | .str s => s.data.map (fun c => Value.str (String.singleton c))
  | _ => []

/-- The regexp-violation entries one attribute contributes
(create.py lines 122-131): for a multi string attribute with a configured
regexp, one entry per non-matching element; for a scalar string attribute
with a regexp, one entry when the value does not match. -/
def regexpViolations (a : Attribute) (sa : STypeAttr) (value : Value) : List String :=
  if a.multi then
    if a.type = "string" then
      match sa.regexp with
      | some r => ((asList value).filter (fun v => !(r (toUnicode v)))).map (fun _ => a.pk)
      | none => []
    else []
  else
    if a.type = "string" then
      match sa.regexp with
      | some r => if !(r (asStr value)) then [a.pk] else []
      | none => []
    else []

/-- Step `value = real_attributes[attribute.pk]; check_attribute_type(...);`
followed by the regexp check (create.py lines 119-131). -/
def checkAndRegexp (env : Env) (a : Attribute) (sa : STypeAttr) (real : AttrDict) :
    Except Err (AttrDict × List String × List String) :=
  let value := dgetD real a.pk
  if env.checkType a.pk value then .ok (real, regexpViolations a sa value, [])
  else .error (.typeError a.pk)

/-- One iteration of the attribute loop of `create_server`
(create.py lines 90-131): fill defaults / record a required violation for
attributes absent from the input, then type-check and regexp-check the
present (explicit or just defaulted) value. Returns the updated
`real_attributes` and the regexp / required violations contributed. -/
def attrStep (env : Env) (stpk : String) (fill_defaults fill_defaults_all : Bool)
    (a : Attribute) (real : AttrDict) :
    Except Err (AttrDict × List String × List String) :=
  let sa := env.stypeAttrs stpk a.pk
  if dhas real a.pk then checkAndRegexp env a sa real
  else if a.multi then
    if defaultEmpty sa.default then checkAndRegexp env a sa (dset real a.pk (.vlist []))
    else checkAndRegexp env a sa (dset real a.pk (type_cast_default env a (getDef sa.default)))
  else if sa.required then
    if fill_defaults && !(defaultEmpty sa.default) then
      checkAndRegexp env a sa (dset real a.pk (type_cast_default env a (getDef sa.default)))
    else .ok (real, [], [a.pk])
  else
    if fill_defaults_all && !(defaultEmpty sa.default) then
      checkAndRegexp env a sa (dset real a.pk (type_cast_default env a (getDef sa.default)))
    else .ok (real, [], [])

/-- Loop `for attribute in servertype.attributes: ...` (create.py lines 90-131),
threading `real_attributes` and accumulating the two violation lists in
iteration order. -/
def attrLoop (env : Env) (stpk : String) (fill_defaults fill_defaults_all : Bool) :
    List Attribute → AttrDict → List String → List String →
    Except Err (AttrDict × List String × List String)
  | [], real, vreg, vreq => .ok (real, vreg, vreq)
  | a :: rest, real, vreg, vreq =>
    match attrStep env stpk fill_defaults fill_defaults_all a real with
    | .error e => .error e
    | .ok (real', nreg, nreq) =>
      attrLoop env stpk fill_defaults fill_defaults_all rest real' (vreg ++ nreg) (vreq ++ nreq)

/-- The attribute loop followed by the unknown-attribute scan
(create.py lines 88-138): returns the final `real_attributes` and the
three violation lists handed to `handle_violations`. -/
def validation_stage (env : Env) (st : ServerType) (fill_defaults fill_defaults_all : Bool)
    (real0 : AttrDict) :
    Except Err (AttrDict × List String × List String × List String) :=
  match attrLoop env st.pk fill_defaults fill_defaults_all st.attributes real0 [] [] with
  | .error e => .error e
  | .ok (real1, vreg, vreq) =>
    let vattr := (real1.map (fun e => e.1)).filter
      (fun k => !(st.attributes.any (fun a => a.pk == k)))
    .ok (real1, vreg, vreq, vattr)

/-- Python truthiness of `attributes.get('segment')`. -/
def truthy : Value → Bool
  | .str s => !(s == "")
  | .num n => !(n == 0)
  | .ip _ => true
  | .vlist vs => !vs.isEmpty

/-- Truthiness of an optional value (`None` is falsy). -/
def truthyO : Option Value → Bool
  | none => false
  | some v => truthy v

/-- The numeric form of a typed ip value. -/
def ipNat : Value → Nat
  | .ip a => a
  | _ => 0

/-- Whether an IP range contains the internal IP
(`IPRange.objects.filter(min__lte=intern_ip, max__gte=intern_ip)`). -/
def ip_range_matches (intern_ip : Value) (r : IPRange) : Bool :=
  decide (r.low ≤ ipNat intern_ip) && decide (ipNat intern_ip ≤ r.high)

/-- The IP-range containment lookup (create.py lines 66-72): the first
matching range's segment, or `CommitError` when no range matches. -/
def lookupSegment (env : Env) (intern_ip : Value) : Except Err Value :=
  match env.ipRanges.filter (ip_range_matches intern_ip) with
  | [] => .error (.commitError "Could not determine segment")
  | r :: _ => .ok (.str r.segment)

/-- Segment resolution (create.py lines 61-72): a truthy explicit
`segment` value is type-checked and used; otherwise (absent or falsy) the
IP-range lookup decides. -/
def resolve_segment (env : Env) (attributes : AttrDict) (intern_ip : Value) :
    Except Err Value :=
  let seg := dget attributes "segment"
  if truthyO seg then
    match check_attribute_type env "segment" (seg.getD (.str "")) with
    | .error e => .error e
    | .ok () => .ok (seg.getD (.str ""))
  else lookupSegment env intern_ip

/-- Resolution of `intern_ip` (create.py lines 51-59): an already-typed
address object is used unchanged, anything else is parsed with
`ip_address`. -/
def parse_intern_ip (env : Env) (v : Value) : Except Err Value :=
  match v with
  | .ip a => .ok (.ip a)
  | w =>
    match env.parseIp w with
    | some a => .ok (.ip a)
    | none => .error .valueError

/-- Lookup `lookups.servertypes[name]`. -/
def lookup_servertype (env : Env) (name : String) : Option ServerType :=
  (env.servertypes.find? (fun p => p.1 == name)).map (fun p => p.2)

/-- The identity portion of `create_server` resolved in steps (1)-(5) and
(7) of the spec: hostname, typed internal IP, segment, servertype and
project. -/
structure IdentityInfo where
  hostname : Value
  intern_ip : Value
  segment_id : Value
  servertype : ServerType
  project_id : Option Value

/-- The six keys removed from the copy of the input before defaulting and
validation (create.py lines 76-86). -/
def stripKeys (d : AttrDict) : AttrDict :=
  derase (derase (derase (derase (derase (derase d "hostname") "intern_ip")
    "comment") "servertype") "segment") "project"

/-- Steps (1)-(5) of `create_server` (create.py lines 33-74): required
identity keys, their type checks, servertype resolution, internal IP
typing, segment resolution and the project value. -/
def prepare_identity (env : Env) (attributes : AttrDict) : Except Err IdentityInfo :=
  if !dhas attributes "hostname" then .error (.commitError "Hostname is required")
  else if !dhas attributes "servertype" then .error (.commitError "Servertype is required")
  else if !dhas attributes "project" then .error (.commitError "Project is required")
  else if !dhas attributes "intern_ip" then
    .error (.commitError "Internal IP (intern_ip) is required")
  else match check_attribute_type env "hostname" (dgetD attributes "hostname") with
  | .error e => .error e
  | .ok () =>
  match check_attribute_type env "servertype" (dgetD attributes "servertype") with
  | .error e => .error e
  | .ok () =>
  match check_attribute_type env "project" (dgetD attributes "project") with
  | .error e => .error e
  | .ok () =>
  match check_attribute_type env "intern_ip" (dgetD attributes "intern_ip") with
  | .error e => .error e
  | .ok () =>
  match lookup_servertype env (asStr (dgetD attributes "servertype")) with
  | none =>
    .error (.commitError ("Unknown servertype: " ++ asStr (dgetD attributes "servertype")))
  | some servertype =>
  match parse_intern_ip env (dgetD attributes "intern_ip") with
  | .error e => .error e
  | .ok intern_ip =>
  match resolve_segment env attributes intern_ip with
  | .error e => .error e
  | .ok segment_id =>
    .ok ⟨dgetD attributes "hostname", intern_ip, segment_id, servertype,
      dget attributes "project"⟩

/-- Everything `create_server` computes before touching the store. -/
structure Prepared where
  hostname : Value
  intern_ip : Value
  segment_id : Value
  servertype_id : String
  project_id : Option Value
  real_attributes : AttrDict

/-- Steps (1)-(9) of `create_server` (create.py lines 33-145): identity
resolution, the stripped copy of the input, the defaulting/validation
loop, the unknown-attribute scan and the `handle_violations` gate. -/
def prepare (env : Env) (attributes : AttrDict)
    (skip_validation fill_defaults fill_defaults_all : Bool) : Except Err Prepared :=
  match prepare_identity env attributes with
  | .error e => .error e
  | .ok idn =>
  match validation_stage env idn.servertype fill_defaults fill_defaults_all
      (stripKeys attributes) with
  | .error e => .error e
  | .ok (real1, vreg, vreq, vattr) =>
  match handle_violations skip_validation vreg vreq vattr with
  | .error e => .error e
  | .ok () =>
    .ok ⟨idn.hostname, idn.intern_ip, idn.segment_id, idn.servertype.pk,
      idn.project_id, real1⟩

/-- A persisted `ServerObject` row together with its attribute values. -/
structure Server where
  server_id : Nat
  hostname : Value
  intern_ip : Value
  project_id : Option Value
  servertype_id : String
  segment_id : Value
  attrs : AttrDict

/-- A persisted `ChangeAdd` row; `attributes_json` holds the dictionary
handed to `json.dumps` (the JSON encoding itself is not modelled). -/
structure ChangeAddRec where
  commit : Nat
  hostname : Value
  attributes_json : AttrDict

/-- The object store: server rows, `ChangeCommit` ids and `ChangeAdd`
rows. Each write below is individually durable (the source wraps none of
them in a transaction). -/
structure Store where
  servers : List Server
  commits : List Nat
  changeAdds : List ChangeAddRec

/-- Which of the three persistence writes of `create_server` raises a
database error, modelling an execution that fails partway. -/
structure FailOracle where
  failInsertServer : Bool
  failCreateCommit : Bool
  failCreateChangeAdd : Bool

/-- The failure-free execution. -/
def noFail : FailOracle := ⟨false, false, false⟩

/-- Fresh `ServerObject` id. -/
def newId (store : Store) : Nat :=
  (store.servers.foldl (fun m s => max m s.server_id) 0) + 1

/-- Fresh `ChangeCommit` id. -/
def newCommitId (store : Store) : Nat :=
  (store.commits.foldl (fun m c => max m c) 0) + 1

/-- Function `create_server` (create.py lines 21-168) over the store: the pure
preparation stages, then `_insert_server` (hostname-uniqueness check and
object insert, lines 170-194), the `Add` snapshot (lines 156-158), the
`ChangeCommit` and the `ChangeAdd` (lines 160-166). The three writes are
separate store operations, each of which may fail after the previous ones
took effect. -/
def create_server (env : Env) (oracle : FailOracle) (store : Store)
    (attributes : AttrDict)
    (skip_validation fill_defaults fill_defaults_all : Bool) :
    Store × Except Err Nat :=
  match prepare env attributes skip_validation fill_defaults fill_defaults_all with
  | .error e => (store, .error e)
  | .ok p =>
    if store.servers.any (fun s => s.hostname == p.hostname) then
      (store, .error (.commitError "Server with that hostname already exists"))
    else if oracle.failInsertServer then (store, .error .dbError)
    else
      let sid := newId store
      let store1 : Store :=
        ⟨store.servers ++ [⟨sid, p.hostname, p.intern_ip, p.project_id,
          p.servertype_id, p.segment_id, p.real_attributes⟩],
         store.commits, store.changeAdds⟩
      let created := dset (dset p.real_attributes "hostname" p.hostname)
        "intern_ip" p.intern_ip
      if oracle.failCreateCommit then (store1, .error .dbError)
      else
        let cid := newCommitId store1
        let store2 : Store := ⟨store1.servers, store1.commits ++ [cid], store1.changeAdds⟩
        if oracle.failCreateChangeAdd then (store2, .error .dbError)
        else
          let store3 : Store :=
            ⟨store2.servers, store2.commits, store2.changeAdds ++ [⟨cid, p.hostname, created⟩]⟩
          (store3, .ok sid)

/-- What the `restore_deleted` view reports back. -/
inductive RestoreOutcome where
  | notFound
  | caughtError (msg : String)
  | restored
  | uncaught (e : Err)

/-- The snapshot selection of `restore_deleted`
(serverdb/views.py lines 259-260): the snapshots of the chosen change's
`deleted` list whose `hostname` equals the POSTed hostname. -/
def findDeleted (deletedSnapshots : List AttrDict) (post : Option Value) :
    List AttrDict :=
  deletedSnapshots.filter (fun d =>
    match dget d "hostname" with
    | some h => post == some h
    | none => false)

/-- View `restore_deleted` (serverdb/views.py lines 255-271): pick the first
matching `Delete` snapshot (404 when none), feed it back into
`create_server` with `skip_validation=True, fill_defaults=False,
fill_defaults_all=False`, catching only `CommitError`. -/
def restore_deleted (env : Env) (store : Store) (deletedSnapshots : List AttrDict)
    (post : Option Value) : Store × RestoreOutcome :=
  match findDeleted deletedSnapshots post with
  | [] => (store, .notFound)
  | sobj :: _ =>
    match create_server env noFail store sobj true false false with
    | (st, .ok _) => (st, .restored)
    | (st, .error (.commitError m)) => (st, .caughtError m)
    | (st, .error e) => (st, .uncaught e)

/-- The error taxonomy at the API boundary, as Python exception classes. -/
inductive ExcClass where
  | schemaError
  | typeErrorCls
  | validationErrorCls
  | conflictError
  | commitErrorCls
  | filterValueError
deriving DecidableEq

/-- The Python class name, used for the `type` field of error results. -/
def cls_name : ExcClass → String
  | .schemaError => "SchemaError"
  | .typeErrorCls => "TypeError"
  | .validationErrorCls => "ValidationError"
  | .conflictError => "ConflictError"
  | .commitErrorCls => "CommitError"
  | .filterValueError => "FilterValueError"

/-- Modelled from the spec: the exception class hierarchy is defined in
`serveradmin/dataset/exceptions.py` and `adminapi`, which are not among
the provided sources. Spec §7 requires every taxonomy error to be
recovered by the boundary handlers of `api/views.py`, whose `except`
clauses catch Django's `ValidationError` (plus `FilterValueError`
explicitly in the query view); accordingly every taxonomy class other
than `FilterValueError` is a subclass of `ValidationError`. -/
def is_validation_error_subclass : ExcClass → Bool
  | .filterValueError => false
  | _ => true

/-- A structured API result (`{status, type, message}`). -/
structure ApiResponse where
  status : String
  rtype : String
  message : String
deriving DecidableEq

/-- The outcome of a handler body: success, or an exception of the
taxonomy with its message. -/
inductive HandlerOutcome where
  | success
  | raised (c : ExcClass) (msg : String)

/-- View `dataset_query` (api/views.py lines 64-94): the `try` body's outcome
run through `except (FilterValueError, ValidationError)`, which returns a
structured result with type `ValueError`; anything else propagates. -/
def dataset_query_view (body : HandlerOutcome) : Except (ExcClass × String) ApiResponse :=
  match body with
  | .success => .ok ⟨"success", "", ""⟩
  | .raised c m =>
    if c = .filterValueError || is_validation_error_subclass c then
      .ok ⟨"error", "ValueError", m⟩
    else .error (c, m)

/-- View `dataset_commit` (api/views.py lines 97-122): `except ValidationError`
returns a structured result typed with the error's class name. -/
def dataset_commit_view (body : HandlerOutcome) : Except (ExcClass × String) ApiResponse :=
  match body with
  | .success => .ok ⟨"success", "", ""⟩
  | .raised c m =>
    if is_validation_error_subclass c then .ok ⟨"error", cls_name c, m⟩
    else .error (c, m)

/-- View `dataset_create` (api/views.py lines 125-158): same `except
ValidationError` boundary as `dataset_commit`. -/
def dataset_create_view (body : HandlerOutcome) : Except (ExcClass × String) ApiResponse :=
  match body with
  | .success => .ok ⟨"success", "", ""⟩
  | .raised c m =>
    if is_validation_error_subclass c then .ok ⟨"error", cls_name c, m⟩
    else .error (c, m)

/-- Modelled from the spec: which taxonomy errors a query request can
raise. Filter compilation (`filter_from_obj`), the materializer and the
validation engine all run under the query view's `try` (spec §4.4, §4.5,
§7). -/
def raisable_in_query : ExcClass → Bool := fun _ => true

/-- Modelled from the spec: which taxonomy errors a commit request can
raise. Filters are only parsed by the query view, so `FilterValueError`
cannot arise here; the rest of the taxonomy can (spec §4.7, §7). -/
def raisable_in_commit : ExcClass → Bool
  | .filterValueError => false
  | _ => true

/-- Modelled from the spec: which taxonomy errors a create request can
raise. As for commit, no filters are parsed here (spec §4.6, §7). -/
def raisable_in_create : ExcClass → Bool
  | .filterValueError => false
  | _ => true

/-- One servertype-attribute link row (`ServerTypeAttributes`), keyed by
servertype and attribute name. -/
structure STALink where
  servertype : String
  attrib : String
deriving DecidableEq

/-- The backing schema store behind the registry: servertypes, attributes,
servertype-attribute links and stored attribute values (the latter keyed
by the owning servertype and the attribute). -/
structure SchemaDb where
  servertypes : List String
  attributes : List String
  links : List STALink
  attributeValues : List (String × String)
deriving DecidableEq

/-- The schema registry: the backing store plus the process-wide lookups
cache (`dataset_lookups_version`); `some snap` means the cache holds the
snapshot `snap`, `none` means it was invalidated. -/
structure SchemaRegistryState where
  db : SchemaDb
  cache : Option SchemaDb

/-- Helper `_clear_lookups` (serverdb/views.py lines 273-274): delete the cache
version key. -/
def clear_lookups (s : SchemaRegistryState) : SchemaRegistryState :=
  { s with cache := none }

/-- What a reader of the registry observes: the cached snapshot when the
cache is valid, otherwise a fresh reload from the backing store. -/
def read_lookups (s : SchemaRegistryState) : SchemaDb :=
  s.cache.getD s.db

/-- View `add_servertype` (serverdb/views.py lines 52-71), successful POST:
save the new servertype, then `_clear_lookups()`. -/
def add_servertype_op (s : SchemaRegistryState) (name : String) : SchemaRegistryState :=
  clear_lookups { s with db := { s.db with servertypes := s.db.servertypes ++ [name] } }

/-- View `delete_servertype` (serverdb/views.py lines 73-86), confirmed POST:
delete the servertype (cascading its links), then `_clear_lookups()`. -/
def delete_servertype_op (s : SchemaRegistryState) (name : String) : SchemaRegistryState :=
  clear_lookups
    { s with db :=
      { s.db with
        servertypes := s.db.servertypes.filter (fun n => !(n == name)),
        links := s.db.links.filter (fun l => !(l.servertype == name)) } }

/-- View `manage_servertype_attr` (serverdb/views.py lines 88-170), valid POST:
save the added or edited link, then `_clear_lookups()`. -/
def manage_servertype_attr_op (s : SchemaRegistryState) (link : STALink) :
    SchemaRegistryState :=
  clear_lookups
    { s with db :=
      { s.db with links :=
        if s.db.links.any (fun l => l == link) then s.db.links
        else s.db.links ++ [link] } }

/-- View `delete_servertype_attr` (serverdb/views.py lines 172-187), confirmed
POST: delete the stored attribute values and the link. The source calls
no `_clear_lookups()` on this path, so the cache is left as it was. -/
def delete_servertype_attr_op (s : SchemaRegistryState) (stype attrib : String) :
    SchemaRegistryState :=
  { s with db :=
    { s.db with
      attributeValues := s.db.attributeValues.filter
        (fun p => !(p.1 == stype && p.2 == attrib)),
      links := s.db.links.filter
        (fun l => !(l.servertype == stype && l.attrib == attrib)) } }

/-- View `add_attribute` (serverdb/views.py lines 220-240), valid POST: save
the attribute, then `_clear_lookups()`. -/
def add_attribute_op (s : SchemaRegistryState) (name : String) : SchemaRegistryState :=
  clear_lookups { s with db := { s.db with attributes := s.db.attributes ++ [name] } }

/-- View `delete_attribute` (serverdb/views.py lines 205-218), confirmed POST:
delete the attribute, then `_clear_lookups()`. -/
def delete_attribute_op (s : SchemaRegistryState) (name : String) : SchemaRegistryState :=
  clear_lookups
    { s with db := { s.db with attributes := s.db.attributes.filter (fun n => !(n == name)) } }

/-- The condition under which the loop records a required violation for an
attribute: declared scalar, required, absent, and not defaultable under
`fill_defaults`. -/
def reqViolCond (env : Env) (stpk : String) (fill_defaults : Bool)
    (real : AttrDict) (a : Attribute) : Bool :=
  !(dhas real a.pk) && !a.multi && (env.stypeAttrs stpk a.pk).required
    && !(fill_defaults && !(defaultEmpty (env.stypeAttrs stpk a.pk).default))

/-- The value an attribute ends up with when the loop processes it against
`real`: the present value, a filled default, the empty sequence, or
nothing (skipped / required violation). -/
def valueOfAttr (env : Env) (stpk : String) (fill_defaults fill_defaults_all : Bool)
    (real : AttrDict) (a : Attribute) : Option Value :=
  let sa := env.stypeAttrs stpk a.pk
  match dget real a.pk with
  | some v => some v
  | none =>
    if a.multi then
      some (if defaultEmpty sa.default then .vlist []
            else type_cast_default env a (getDef sa.default))
    else if sa.required then
      if fill_defaults && !(defaultEmpty sa.default) then
        some (type_cast_default env a (getDef sa.default))
      else none
    else
      if fill_defaults_all && !(defaultEmpty sa.default) then
        some (type_cast_default env a (getDef sa.default))
      else none

/-- The regexp-violation entries one attribute contributes to the loop's
collection, in terms of the value it is processed with. -/
def regContrib (env : Env) (stpk : String) (fill_defaults fill_defaults_all : Bool)
    (real : AttrDict) (a : Attribute) : List String :=
  match valueOfAttr env stpk fill_defaults fill_defaults_all real a with
  | some v => regexpViolations a (env.stypeAttrs stpk a.pk) v
  | none => []

theorem reqViolCond_congr (env : Env) (stpk : String) (fd : Bool)
    (real real' : AttrDict) (a : Attribute)
    (h : dget real' a.pk = dget real a.pk) :
    reqViolCond env stpk fd real' a = reqViolCond env stpk fd real a := by
  simp [reqViolCond, dhas, h]

theorem valueOfAttr_congr (env : Env) (stpk : String) (fd fda : Bool)
    (real real' : AttrDict) (a : Attribute)
    (h : dget real' a.pk = dget real a.pk) :
    valueOfAttr env stpk fd fda real' a = valueOfAttr env stpk fd fda real a := by
  simp [valueOfAttr, h]

theorem regContrib_congr (env : Env) (stpk : String) (fd fda : Bool)
    (real real' : AttrDict) (a : Attribute)
    (h : dget real' a.pk = dget real a.pk) :
    regContrib env stpk fd fda real' a = regContrib env stpk fd fda real a := by
  simp [regContrib, valueOfAttr_congr env stpk fd fda real real' a h]

theorem list_map_congr {α β : Type} (f g : α → β) :
    ∀ (l : List α), (∀ x ∈ l, f x = g x) → l.map f = l.map g := by
  intro l
  induction l with
  | nil => intro _; rfl
  | cons x t ih =>
    intro h
    simp only [List.map_cons]
    rw [h x (by simp), ih (fun y hy => h y (by simp [hy]))]

theorem list_filter_congr {α : Type} (f g : α → Bool) :
    ∀ (l : List α), (∀ x ∈ l, f x = g x) → l.filter f = l.filter g := by
  intro l
  induction l with
  | nil => intro _; rfl
  | cons x t ih =>
    intro h
    simp only [List.filter_cons]
    rw [h x (by simp), ih (fun y hy => h y (by simp [hy]))]

theorem checkAndRegexp_ok_inv (env : Env) (a : Attribute) (sa : STypeAttr)
    (real real' : AttrDict) (nreg nreq : List String)
    (h : checkAndRegexp env a sa real = .ok (real', nreg, nreq)) :
    real' = real ∧ nreg = regexpViolations a sa (dgetD real a.pk) ∧ nreq = [] := by
  unfold checkAndRegexp at h
  by_cases hc : env.checkType a.pk (dgetD real a.pk)
  · simp only [hc, if_true, Except.ok.injEq, Prod.mk.injEq] at h
    exact ⟨h.1.symm, h.2.1.symm, h.2.2.symm⟩
  · simp [hc] at h

theorem attrStep_ok_spec (env : Env) (stpk : String) (fd fda : Bool)
    (a : Attribute) (real real' : AttrDict) (nreg nreq : List String)
    (h : attrStep env stpk fd fda a real = .ok (real', nreg, nreq)) :
    (∀ k, k ≠ a.pk → dget real' k = dget real k)
    ∧ nreq = (if reqViolCond env stpk fd real a then [a.pk] else [])
    ∧ nreg = regContrib env stpk fd fda real a
    ∧ dget real' a.pk = valueOfAttr env stpk fd fda real a := by
  unfold attrStep at h
  cases hv : dget real a.pk with
  | some v =>
    have hp : dhas real a.pk = true := by simp [dhas, hv]
    rw [hp] at h
    simp only [if_true] at h
    obtain ⟨h1, h2, h3⟩ := checkAndRegexp_ok_inv env a _ real real' nreg nreq h
    subst h1
    refine ⟨fun k _ => rfl, ?_, ?_, ?_⟩
    · simp [h3, reqViolCond, dhas, hv]
    · simp [h2, regContrib, valueOfAttr, hv, dgetD]
    · simp [valueOfAttr, hv]
  | none =>
    have hp : dhas real a.pk = false := by simp [dhas, hv]
    rw [hp] at h
    simp only [Bool.false_eq_true, if_false] at h
    by_cases hm : a.multi
    · rw [if_pos hm] at h
      by_cases hde : defaultEmpty (env.stypeAttrs stpk a.pk).default
      · rw [if_pos hde] at h
        obtain ⟨h1, h2, h3⟩ := checkAndRegexp_ok_inv env a _ _ real' nreg nreq h
        subst h1
        refine ⟨fun k hk => dget_dset_ne real a.pk k _ hk, ?_, ?_, ?_⟩
        · simp [h3, reqViolCond, hm]
        · simp [h2, regContrib, valueOfAttr, hv, hm, hde, dgetD, dget_dset_self]
        · simp [valueOfAttr, hv, hm, hde, dget_dset_self]
      · rw [if_neg hde] at h
        obtain ⟨h1, h2, h3⟩ := checkAndRegexp_ok_inv env a _ _ real' nreg nreq h
        subst h1
        refine ⟨fun k hk => dget_dset_ne real a.pk k _ hk, ?_, ?_, ?_⟩
        · simp [h3, reqViolCond, hm]
        · simp [h2, regContrib, valueOfAttr, hv, hm, hde, dgetD, dget_dset_self]
        · simp [valueOfAttr, hv, hm, hde, dget_dset_self]
    · rw [if_neg hm] at h
      by_cases hr : (env.stypeAttrs stpk a.pk).required
      · rw [if_pos hr] at h
        by_cases hfd : fd && !(defaultEmpty (env.stypeAttrs stpk a.pk).default)
        · rw [if_pos hfd] at h
          obtain ⟨h1, h2, h3⟩ := checkAndRegexp_ok_inv env a _ _ real' nreg nreq h
          subst h1
          refine ⟨fun k hk => dget_dset_ne real a.pk k _ hk, ?_, ?_, ?_⟩
          · simp [h3, reqViolCond, dhas, hv, hm, hr, hfd]
          · simp [h2, regContrib, valueOfAttr, hv, hm, hr, hfd, dgetD, dget_dset_self]
          · simp [valueOfAttr, hv, hm, hr, hfd, dget_dset_self]
        · rw [if_neg hfd] at h
          simp only [Except.ok.injEq, Prod.mk.injEq] at h
          obtain ⟨h1, h2, h3⟩ := h
          subst h1
          refine ⟨fun k _ => rfl, ?_, ?_, ?_⟩
          · simp [← h3, reqViolCond, dhas, hv, hm, hr, hfd]
          · simp [← h2, regContrib, valueOfAttr, hv, hm, hr, hfd]
          · simp [valueOfAttr, hv, hm, hr, hfd]
      · rw [if_neg hr] at h
        by_cases hfda : fda && !(defaultEmpty (env.stypeAttrs stpk a.pk).default)
        · rw [if_pos hfda] at h
          obtain ⟨h1, h2, h3⟩ := checkAndRegexp_ok_inv env a _ _ real' nreg nreq h
          subst h1
          refine ⟨fun k hk => dget_dset_ne real a.pk k _ hk, ?_, ?_, ?_⟩
          · simp [h3, reqViolCond, dhas, hv, hm, hr]
          · simp [h2, regContrib, valueOfAttr, hv, hm, hr, hfda, dgetD, dget_dset_self]
          · simp [valueOfAttr, hv, hm, hr, hfda, dget_dset_self]
        · rw [if_neg hfda] at h
          simp only [Except.ok.injEq, Prod.mk.injEq] at h
          obtain ⟨h1, h2, h3⟩ := h
          subst h1
          refine ⟨fun k _ => rfl, ?_, ?_, ?_⟩
          · simp [← h3, reqViolCond, dhas, hv, hm, hr]
          · simp [← h2, regContrib, valueOfAttr, hv, hm, hr, hfda]
          · simp [valueOfAttr, hv, hm, hr, hfda]

theorem attrLoop_ok_spec (env : Env) (stpk : String) (fd fda : Bool) :
    ∀ (as : List Attribute) (real : AttrDict) (vreg vreq : List String)
      (real1 : AttrDict) (r1 r2 : List String),
    (as.map (fun a => a.pk)).Nodup →
    attrLoop env stpk fd fda as real vreg vreq = .ok (real1, r1, r2) →
    r2 = vreq ++ (as.filter (fun a => reqViolCond env stpk fd real a)).map (fun a => a.pk)
    ∧ r1 = vreg ++ (as.map (fun a => regContrib env stpk fd fda real a)).flatten
    ∧ (∀ k, k ∉ as.map (fun a => a.pk) → dget real1 k = dget real k)
    ∧ (∀ a ∈ as, dget real1 a.pk = valueOfAttr env stpk fd fda real a) := by
  intro as
  induction as with
  | nil =>
    intro real vreg vreq real1 r1 r2 _ h
    simp only [attrLoop, Except.ok.injEq, Prod.mk.injEq] at h
    obtain ⟨h1, h2, h3⟩ := h
    subst h1; subst h2; subst h3
    simp
  | cons a t ih =>
    intro real vreg vreq real1 r1 r2 hnd h
    simp only [List.map_cons, List.nodup_cons] at hnd
    obtain ⟨ha, hnd'⟩ := hnd
    simp only [attrLoop] at h
    cases hs : attrStep env stpk fd fda a real with
    | error e => rw [hs] at h; simp at h
    | ok res =>
      obtain ⟨real', nreg, nreq⟩ := res
      rw [hs] at h
      simp only [] at h
      obtain ⟨spres, sreq, sreg, sval⟩ := attrStep_ok_spec env stpk fd fda a real real' nreg nreq hs
      obtain ⟨ihr2, ihr1, ihpres, ihval⟩ := ih real' (vreg ++ nreg) (vreq ++ nreq) real1 r1 r2 hnd' h
      have hne : ∀ b ∈ t, b.pk ≠ a.pk := by
        intro b hb heq
        exact ha (heq ▸ List.mem_map_of_mem (fun x => x.pk) hb)
      have hteq : ∀ b ∈ t, dget real' b.pk = dget real b.pk := fun b hb =>
        spres b.pk (hne b hb)
      refine ⟨?_, ?_, ?_, ?_⟩
      · rw [ihr2, sreq,
          list_filter_congr _ _ t (fun b hb => reqViolCond_congr env stpk fd real real' b (hteq b hb))]
        by_cases hc : reqViolCond env stpk fd real a
        · simp [hc, List.filter_cons]
        · simp [hc, List.filter_cons]
      · rw [ihr1, sreg,
          list_map_congr _ _ t (fun b hb => regContrib_congr env stpk fd fda real real' b (hteq b hb))]
        simp
      · intro k hk
        simp only [List.map_cons, List.mem_cons, not_or] at hk
        rw [ihpres k hk.2, spres k hk.1]
      · intro b hb
        rcases List.mem_cons.mp hb with hb | hb
        · subst hb
          rw [ihpres b.pk ha, sval]
        · rw [ihval b hb, valueOfAttr_congr env stpk fd fda real real' b (hteq b hb)]

theorem validation_stage_ok_inv (env : Env) (st : ServerType) (fd fda : Bool)
    (real0 real1 : AttrDict) (vreg vreq vattr : List String)
    (h : validation_stage env st fd fda real0 = .ok (real1, vreg, vreq, vattr)) :
    attrLoop env st.pk fd fda st.attributes real0 [] [] = .ok (real1, vreg, vreq)
    ∧ vattr = (real1.map (fun e => e.1)).filter
        (fun k => !(st.attributes.any (fun a => a.pk == k))) := by
  unfold validation_stage at h
  cases hl : attrLoop env st.pk fd fda st.attributes real0 [] [] with
  | error e => rw [hl] at h; simp at h
  | ok res =>
    obtain ⟨r1, rg, rq⟩ := res
    rw [hl] at h
    simp only [Except.ok.injEq, Prod.mk.injEq] at h
    obtain ⟨h1, h2, h3, h4⟩ := h
    subst h1; subst h2; subst h3; subst h4
    exact ⟨rfl, rfl⟩

theorem prepare_of_stages (env : Env) (attrs : AttrDict)
    (sv fd fda : Bool) (idn : IdentityInfo) (real1 : AttrDict)
    (vreg vreq vattr : List String)
    (h1 : prepare_identity env attrs = .ok idn)
    (h2 : validation_stage env idn.servertype fd fda (stripKeys attrs)
          = .ok (real1, vreg, vreq, vattr))
    (h3 : handle_violations sv vreg vreq vattr = .ok ()) :
    prepare env attrs sv fd fda
      = .ok ⟨idn.hostname, idn.intern_ip, idn.segment_id, idn.servertype.pk,
          idn.project_id, real1⟩ := by
  unfold prepare
  rw [h1]
  dsimp only
  rw [h2]
  dsimp only
  rw [h3]

theorem parse_intern_ip_typed (env : Env) (v w : Value)
    (h : parse_intern_ip env v = .ok w) : ∃ n, w = .ip n := by
  cases v with
  | ip a =>
    simp only [parse_intern_ip, Except.ok.injEq] at h
    exact ⟨a, h.symm⟩
  | str s =>
    simp only [parse_intern_ip] at h
    cases hp : env.parseIp (.str s) with
    | none => rw [hp] at h; simp at h
    | some a => rw [hp] at h; simp only [Except.ok.injEq] at h; exact ⟨a, h.symm⟩
  | num n =>
    simp only [parse_intern_ip] at h
    cases hp : env.parseIp (.num n) with
    | none => rw [hp] at h; simp at h
    | some a => rw [hp] at h; simp only [Except.ok.injEq] at h; exact ⟨a, h.symm⟩
  | vlist vs =>
    simp only [parse_intern_ip] at h
    cases hp : env.parseIp (.vlist vs) with
    | none => rw [hp] at h; simp at h
    | some a => rw [hp] at h; simp only [Except.ok.injEq] at h; exact ⟨a, h.symm⟩

theorem prepare_identity_ip_typed (env : Env) (attrs : AttrDict) (idn : IdentityInfo)
    (h : prepare_identity env attrs = .ok idn) : ∃ n, idn.intern_ip = .ip n := by
  unfold prepare_identity at h
  split at h
  · simp at h
  split at h
  · simp at h
  split at h
  · simp at h
  split at h
  · simp at h
  split at h
  · simp at h
  split at h
  · simp at h
  split at h
  · simp at h
  split at h
  · simp at h
  split at h
  · simp at h
  split at h
  · simp at h
  rename_i intern_ip hparse
  split at h
  · simp at h
  simp only [Except.ok.injEq] at h
  obtain ⟨n, hn⟩ := parse_intern_ip_typed env _ intern_ip hparse
  exact ⟨n, by rw [← h]; exact hn⟩

theorem dget_stripKeys_identity (d : AttrDict) :
    dget (stripKeys d) "hostname" = none ∧ dget (stripKeys d) "intern_ip" = none
    ∧ dget (stripKeys d) "comment" = none ∧ dget (stripKeys d) "servertype" = none
    ∧ dget (stripKeys d) "segment" = none ∧ dget (stripKeys d) "project" = none := by
  unfold stripKeys
  refine ⟨?_, ?_, ?_, ?_, ?_, ?_⟩
  · rw [dget_derase_ne _ _ _ (by decide), dget_derase_ne _ _ _ (by decide),
      dget_derase_ne _ _ _ (by decide), dget_derase_ne _ _ _ (by decide),
      dget_derase_ne _ _ _ (by decide), dget_derase_self]
  · rw [dget_derase_ne _ _ _ (by decide), dget_derase_ne _ _ _ (by decide),
      dget_derase_ne _ _ _ (by decide), dget_derase_ne _ _ _ (by decide),
      dget_derase_self]
  · rw [dget_derase_ne _ _ _ (by decide), dget_derase_ne _ _ _ (by decide),
      dget_derase_ne _ _ _ (by decide), dget_derase_self]
  · rw [dget_derase_ne _ _ _ (by decide), dget_derase_ne _ _ _ (by decide),
      dget_derase_self]
  · rw [dget_derase_ne _ _ _ (by decide), dget_derase_self]
  · rw [dget_derase_self]

theorem dget_stripKeys_other (d : AttrDict) (k : String)
    (h1 : k ≠ "hostname") (h2 : k ≠ "intern_ip") (h3 : k ≠ "comment")
    (h4 : k ≠ "servertype") (h5 : k ≠ "segment") (h6 : k ≠ "project") :
    dget (stripKeys d) k = dget d k := by
  unfold stripKeys
  rw [dget_derase_ne _ _ _ h6, dget_derase_ne _ _ _ h5, dget_derase_ne _ _ _ h4,
    dget_derase_ne _ _ _ h3, dget_derase_ne _ _ _ h2, dget_derase_ne _ _ _ h1]

theorem stripKeys_dset_comment (d : AttrDict) (v : Value) :
    stripKeys (dset d "comment" v) = stripKeys d := by
  unfold stripKeys
  rw [derase_dset_ne _ _ _ _ (by decide), derase_dset_ne _ _ _ _ (by decide),
    derase_dset_same]

theorem stripKeys_derase_comment (d : AttrDict) :
    stripKeys (derase d "comment") = stripKeys d := by
  unfold stripKeys
  rw [derase_comm d "comment" "hostname", derase_comm _ "comment" "intern_ip",
    derase_idem]

theorem prepare_identity_congr (env : Env) (a1 a2 : AttrDict)
    (hh : dget a1 "hostname" = dget a2 "hostname")
    (hs : dget a1 "servertype" = dget a2 "servertype")
    (hp : dget a1 "project" = dget a2 "project")
    (hi : dget a1 "intern_ip" = dget a2 "intern_ip")
    (hg : dget a1 "segment" = dget a2 "segment") :
    prepare_identity env a1 = prepare_identity env a2 := by
  unfold prepare_identity resolve_segment
  simp only [dhas, dgetD, hh, hs, hp, hi, hg]

theorem prepare_congr (env : Env) (a1 a2 : AttrDict) (sv fd fda : Bool)
    (hid : prepare_identity env a1 = prepare_identity env a2)
    (hstrip : stripKeys a1 = stripKeys a2) :
    prepare env a1 sv fd fda = prepare env a2 sv fd fda := by
  unfold prepare
  rw [hid, hstrip]

theorem create_server_congr (env : Env) (oracle : FailOracle) (store : Store)
    (a1 a2 : AttrDict) (sv fd fda : Bool)
    (hp : prepare env a1 sv fd fda = prepare env a2 sv fd fda) :
    create_server env oracle store a1 sv fd fda
      = create_server env oracle store a2 sv fd fda := by
  unfold create_server
  rw [hp]

theorem foldl_max_le_base :
    ∀ (l : List Server) (acc : Nat), acc ≤ l.foldl (fun m s => max m s.server_id) acc := by
  intro l
  induction l with
  | nil => intro acc; exact Nat.le_refl acc
  | cons a t ih =>
    intro acc
    exact Nat.le_trans (Nat.le_max_left acc a.server_id) (ih (max acc a.server_id))

theorem foldl_max_mem :
    ∀ (l : List Server) (acc : Nat) (s : Server), s ∈ l →
      s.server_id ≤ l.foldl (fun m s => max m s.server_id) acc := by
  intro l
  induction l with
  | nil => intro acc s hs; simp at hs
  | cons a t ih =>
    intro acc s hs
    rcases List.mem_cons.mp hs with hs | hs
    · subst hs
      exact Nat.le_trans (Nat.le_max_right acc s.server_id) (foldl_max_le_base t _)
    · exact ih _ s hs

/-- Freshly generated server ids never collide with existing rows. -/
theorem newId_fresh (store : Store) : ∀ s ∈ store.servers, s.server_id ≠ newId store := by
  intro s hs heq
  have hle := foldl_max_mem store.servers 0 s hs
  rw [heq] at hle
  exact Nat.not_succ_le_self _ (hle.trans_eq rfl)

/-- A minimal schema for the concrete executions below: servertype `vm`
with no declared attributes, permissive type checks, no IP ranges. -/
def envVm : Env :=
  ⟨[("vm", ⟨"vm", []⟩)], fun _ _ => ⟨false, none, none⟩, [],
   fun _ s => .str s, fun _ _ => true, fun _ => none⟩

/-- The empty object store. -/
def emptyStore : Store := ⟨[], [], []⟩

/-- A well-formed create input with an explicit (truthy) segment. -/
def attrsC1 : AttrDict :=
  [("hostname", .str "a.example"), ("servertype", .str "vm"),
   ("project", .str "p1"), ("intern_ip", .ip 5), ("segment", .str "seg1")]

/-- C1: the persistence/audit sequence of `create_server` is claimed to be
atomic, but the source wraps the object insert, the `ChangeCommit` and the
`ChangeAdd` in no transaction: the execution in which the `ChangeAdd`
write fails leaves the object (and even the commit row) persisted with no
`Add` record — both-or-neither is violated. -/
theorem c1_create_not_atomic :
    (create_server envVm ⟨false, false, true⟩ emptyStore attrsC1 false false false).2
      = .error .dbError
    ∧ (create_server envVm ⟨false, false, true⟩ emptyStore attrsC1 false false false).1.servers
      = [⟨1, .str "a.example", .ip 5, some (.str "p1"), "vm", .str "seg1", []⟩]
    ∧ (create_server envVm ⟨false, false, true⟩ emptyStore attrsC1 false false false).1.commits
      = [1]
    ∧ (create_server envVm ⟨false, false, true⟩ emptyStore attrsC1 false false false).1.changeAdds
      = [] :=
  ⟨rfl, rfl, rfl, rfl⟩

/-- The schema store used for the registry-cache execution: one
servertype `vm` linked to one attribute `os`, with one stored value. -/
def dbC3 : SchemaDb := ⟨["vm"], ["os"], [⟨"vm", "os"⟩], [("vm", "os")]⟩

/-- C3: removing a servertype-attribute link via
`delete_servertype_attr` never calls `_clear_lookups`, so a reader using
the still-populated cache observes the deleted link — a stale schema after
a committed schema change. -/
theorem c3_delete_servertype_attr_stale_cache :
    (delete_servertype_attr_op ⟨dbC3, some dbC3⟩ "vm" "os").db.links = []
    ∧ (read_lookups (delete_servertype_attr_op ⟨dbC3, some dbC3⟩ "vm" "os")).links
      = [⟨"vm", "os"⟩]
    ∧ read_lookups (delete_servertype_attr_op ⟨dbC3, some dbC3⟩ "vm" "os")
      ≠ (delete_servertype_attr_op ⟨dbC3, some dbC3⟩ "vm" "os").db := by
  refine ⟨rfl, rfl, ?_⟩
  decide

/-- The other five schema mutations of serverdb/views.py do invalidate
the cache before returning. -/
theorem schema_ops_invalidate (s : SchemaRegistryState) (n : String) (l : STALink) :
    (add_servertype_op s n).cache = none
    ∧ (delete_servertype_op s n).cache = none
    ∧ (manage_servertype_attr_op s l).cache = none
    ∧ (add_attribute_op s n).cache = none
    ∧ (delete_attribute_op s n).cache = none :=
  ⟨rfl, rfl, rfl, rfl, rfl⟩

/-- An input whose `segment` key is present but holds the empty string —
falsy under the `if segment_id:` test of create.py line 63. -/
def attrsC4 : AttrDict :=
  [("hostname", .str "b.example"), ("servertype", .str "vm"),
   ("project", .str "p1"), ("intern_ip", .ip 5), ("segment", .str "")]

/-- C4 counterexample: this input contains a segment value, yet
`create_server` performs the IP-range lookup anyway (the value is falsy),
failing with `CommitError` because no range matches — refuting "for every
call whose input contains a segment value, that explicit value is used and
no IP-range lookup occurs". -/
theorem c4_counterexample :
    dget attrsC4 "segment" = some (.str "")
    ∧ create_server envVm noFail emptyStore attrsC4 false false false
      = (emptyStore, .error (.commitError "Could not determine segment")) :=
  ⟨rfl, rfl⟩

/-- C4 (amended): a present and *truthy* segment value is type-checked and
used, and the IP-range table is never consulted (the result does not
depend on it); with namely an absent or falsy segment value the lookup
decides: an empty match set fails with `CommitError` and a non-empty one
uses the first range returned. -/
theorem c4_segment_resolution_amended (env : Env) (attrs : AttrDict) (intern_ip : Value) :
    (∀ v, dget attrs "segment" = some v → truthy v = true →
      (resolve_segment env attrs intern_ip
        = (match check_attribute_type env "segment" v with
           | .error e => .error e
           | .ok () => .ok v))
      ∧ ∀ rs, resolve_segment { env with ipRanges := rs } attrs intern_ip
          = resolve_segment env attrs intern_ip)
    ∧ (truthyO (dget attrs "segment") = false →
      (env.ipRanges.filter (ip_range_matches intern_ip) = [] →
        resolve_segment env attrs intern_ip
          = .error (.commitError "Could not determine segment"))
      ∧ (∀ r rest, env.ipRanges.filter (ip_range_matches intern_ip) = r :: rest →
        resolve_segment env attrs intern_ip = .ok (.str r.segment))) := by
  constructor
  · intro v hv htr
    constructor
    · unfold resolve_segment
      rw [hv]
      simp [truthyO, htr]
    · intro rs
      unfold resolve_segment
      rw [hv]
      simp [truthyO, htr, check_attribute_type]
  · intro hfalsy
    constructor
    · intro hempty
      simp only [resolve_segment, hfalsy, Bool.false_eq_true, if_false]
      unfold lookupSegment
      rw [hempty]
    · intro r rest hcons
      simp only [resolve_segment, hfalsy, Bool.false_eq_true, if_false]
      unfold lookupSegment
      rw [hcons]

/-- A segment-resolution environment with one configured IP range. -/
def envSeg : Env :=
  ⟨[("vm", ⟨"vm", []⟩)], fun _ _ => ⟨false, none, none⟩, [⟨0, 10, "seg1"⟩],
   fun _ s => .str s, fun _ _ => true, fun _ => none⟩

theorem c4_witness :
    dget attrsC1 "segment" = some (.str "seg1")
    ∧ truthy (.str "seg1") = true
    ∧ resolve_segment envSeg attrsC1 (.ip 5) = .ok (.str "seg1")
    ∧ truthyO (dget (derase attrsC1 "segment") "segment") = false
    ∧ resolve_segment envSeg (derase attrsC1 "segment") (.ip 5) = .ok (.str "seg1") :=
  ⟨rfl, rfl,
   Eq.trans
     (((c4_segment_resolution_amended envSeg attrsC1 (.ip 5)).1
        (.str "seg1") rfl rfl).1) rfl,
   rfl,
   ((c4_segment_resolution_amended envSeg (derase attrsC1 "segment") (.ip 5)).2
      rfl).2 ⟨0, 10, "seg1"⟩ [] rfl⟩

/-- C2: every error of the taxonomy that an endpoint body can raise is
caught by that endpoint's boundary handler and turned into a structured
`{status: error, type, message}` result — none propagates uncaught. -/
theorem c2_api_boundary_structured_errors (c : ExcClass) (m : String) :
    (raisable_in_query c = true →
      dataset_query_view (.raised c m) = .ok ⟨"error", "ValueError", m⟩)
    ∧ (raisable_in_commit c = true →
      dataset_commit_view (.raised c m) = .ok ⟨"error", cls_name c, m⟩)
    ∧ (raisable_in_create c = true →
      dataset_create_view (.raised c m) = .ok ⟨"error", cls_name c, m⟩) := by
  cases c <;>
    simp [raisable_in_query, raisable_in_commit, raisable_in_create,
      dataset_query_view, dataset_commit_view, dataset_create_view,
      is_validation_error_subclass, cls_name]

theorem c2_witness :
    raisable_in_create .commitErrorCls = true
    ∧ dataset_create_view
        (.raised .commitErrorCls "Server with that hostname already exists")
      = .ok ⟨"error", "CommitError", "Server with that hostname already exists"⟩ :=
  ⟨rfl,
   (c2_api_boundary_structured_errors .commitErrorCls
      "Server with that hostname already exists").2.2 rfl⟩

/-- C9: the six identity keys are removed from the copy of the input used
for defaulting/validation and nothing else is; in particular a caller's
`comment` entry is entirely ignored: the whole call behaves as if the key
had been deleted from the input, so it is neither stored, nor validated,
nor reported as unknown (the input mapping itself is never mutated — the
source works on `attributes.copy()`, which the embedding reflects by
reading the input only). -/
theorem c9_comment_discarded (env : Env) (oracle : FailOracle) (store : Store)
    (attrs : AttrDict) (v : Value) (sv fd fda : Bool) :
    create_server env oracle store (dset attrs "comment" v) sv fd fda
      = create_server env oracle store (derase attrs "comment") sv fd fda
    ∧ dget (stripKeys attrs) "hostname" = none
    ∧ dget (stripKeys attrs) "intern_ip" = none
    ∧ dget (stripKeys attrs) "comment" = none
    ∧ dget (stripKeys attrs) "servertype" = none
    ∧ dget (stripKeys attrs) "segment" = none
    ∧ dget (stripKeys attrs) "project" = none
    ∧ (∀ k, k ≠ "hostname" → k ≠ "intern_ip" → k ≠ "comment" → k ≠ "servertype" →
        k ≠ "segment" → k ≠ "project" → dget (stripKeys attrs) k = dget attrs k) := by
  obtain ⟨s1, s2, s3, s4, s5, s6⟩ := dget_stripKeys_identity attrs
  refine ⟨?_, s1, s2, s3, s4, s5, s6,
    fun k h1 h2 h3 h4 h5 h6 => dget_stripKeys_other attrs k h1 h2 h3 h4 h5 h6⟩
  apply create_server_congr
  apply prepare_congr
  · apply prepare_identity_congr <;>
      rw [dget_dset_ne _ _ _ _ (by decide), dget_derase_ne _ _ _ (by decide)]
  · rw [stripKeys_dset_comment, stripKeys_derase_comment]

theorem c9_witness :
    create_server envVm noFail emptyStore (dset attrsC1 "comment" (.str "a note"))
        false false false
      = create_server envVm noFail emptyStore (derase attrsC1 "comment") false false false
    ∧ dget (stripKeys attrsC1) "comment" = none
    ∧ dget (stripKeys attrsC1) "hostname" = none :=
  ⟨(c9_comment_discarded envVm noFail emptyStore attrsC1 (.str "a note")
      false false false).1,
   (c9_comment_discarded envVm noFail emptyStore attrsC1 (.str "a note")
      false false false).2.2.2.1,
   (c9_comment_discarded envVm noFail emptyStore attrsC1 (.str "a note")
      false false false).2.1⟩

/-- C5: a declared attribute absent from the (stripped) input is resolved
by the loop as follows — a multi attribute with empty default becomes the
empty sequence; a multi attribute with a configured default is filled from
it regardless of the fill flags; a required scalar is filled only under
`fill_defaults` with a non-empty default and otherwise is omitted and
recorded as a required violation; an optional scalar is filled only under
`fill_defaults_all` with a non-empty default and otherwise is omitted
entirely. -/
theorem c5_defaulting (env : Env) (st : ServerType) (fd fda : Bool)
    (real0 real1 : AttrDict) (vreg vreq vattr : List String) (a : Attribute)
    (hnd : (st.attributes.map (fun a => a.pk)).Nodup)
    (hmem : a ∈ st.attributes)
    (habs : dhas real0 a.pk = false)
    (h : validation_stage env st fd fda real0 = .ok (real1, vreg, vreq, vattr)) :
    (a.multi = true → defaultEmpty (env.stypeAttrs st.pk a.pk).default = true →
      dget real1 a.pk = some (.vlist []))
    ∧ (∀ d, a.multi = true → (env.stypeAttrs st.pk a.pk).default = some d → d ≠ "" →
      dget real1 a.pk = some (type_cast_default env a d))
    ∧ (∀ d, a.multi = false → (env.stypeAttrs st.pk a.pk).required = true →
      fd = true → (env.stypeAttrs st.pk a.pk).default = some d → d ≠ "" →
      dget real1 a.pk = some (type_cast_default env a d))
    ∧ (a.multi = false → (env.stypeAttrs st.pk a.pk).required = true →
      (fd && !(defaultEmpty (env.stypeAttrs st.pk a.pk).default)) = false →
      dget real1 a.pk = none ∧ a.pk ∈ vreq)
    ∧ (∀ d, a.multi = false → (env.stypeAttrs st.pk a.pk).required = false →
      fda = true → (env.stypeAttrs st.pk a.pk).default = some d → d ≠ "" →
      dget real1 a.pk = some (type_cast_default env a d))
    ∧ (a.multi = false → (env.stypeAttrs st.pk a.pk).required = false →
      (fda && !(defaultEmpty (env.stypeAttrs st.pk a.pk).default)) = false →
      dget real1 a.pk = none) := by
  obtain ⟨hloop, _⟩ := validation_stage_ok_inv env st fd fda real0 real1 vreg vreq vattr h
  obtain ⟨hr2, _, _, hval⟩ :=
    attrLoop_ok_spec env st.pk fd fda st.attributes real0 [] [] real1 vreg vreq hnd hloop
  have hv := hval a hmem
  have hdg : dget real0 a.pk = none := by
    cases hx : dget real0 a.pk with
    | none => rfl
    | some w => unfold dhas at habs; rw [hx] at habs; simp at habs
  refine ⟨?_, ?_, ?_, ?_, ?_, ?_⟩
  · intro hm hde
    rw [hv]
    simp [valueOfAttr, hdg, hm, hde]
  · intro d hm hsd hdne
    have hde : defaultEmpty (env.stypeAttrs st.pk a.pk).default = false := by
      rw [hsd]; simp [defaultEmpty, hdne]
    rw [hv]
    simp [valueOfAttr, hdg, hm, hde, hsd, getDef, defaultEmpty, hdne]
  · intro d hm hreq hfd hsd hdne
    have hde : defaultEmpty (env.stypeAttrs st.pk a.pk).default = false := by
      rw [hsd]; simp [defaultEmpty, hdne]
    rw [hv]
    simp [valueOfAttr, hdg, hm, hreq, hfd, hde, hsd, getDef, defaultEmpty, hdne]
  · intro hm hreq hcond
    constructor
    · rw [hv]
      simp [valueOfAttr, hdg, hm, hreq, hcond]
    · rw [hr2]
      simp only [List.nil_append]
      have hc : reqViolCond env st.pk fd real0 a = true := by
        simp [reqViolCond, habs, hm, hreq, hcond]
      exact List.mem_map_of_mem _ (List.mem_filter.mpr ⟨hmem, hc⟩)
  · intro d hm hreq hfda hsd hdne
    have hde : defaultEmpty (env.stypeAttrs st.pk a.pk).default = false := by
      rw [hsd]; simp [defaultEmpty, hdne]
    rw [hv]
    simp [valueOfAttr, hdg, hm, hreq, hfda, hde, hsd, getDef, defaultEmpty, hdne]
  · intro hm hreq hcond
    rw [hv]
    simp [valueOfAttr, hdg, hm, hreq, hcond]

/-- C6: validation never stops at the first problem — on any run reaching
the gate, the required-violation list names exactly the attributes failing
the required condition, the regexp list is the concatenation of every
declared attribute's pattern failures, the unknown list holds exactly the
input keys not declared on the servertype, and with `skip_validation`
false the gate fails with a `ValidationError` carrying all three complete
lists whenever any of them is non-empty. -/
theorem c6_violations_collected (env : Env) (st : ServerType) (fd fda : Bool)
    (real0 real1 : AttrDict) (vreg vreq vattr : List String)
    (hnd : (st.attributes.map (fun a => a.pk)).Nodup)
    (h : validation_stage env st fd fda real0 = .ok (real1, vreg, vreq, vattr)) :
    vreq = (st.attributes.filter
        (fun a => reqViolCond env st.pk fd real0 a)).map (fun a => a.pk)
    ∧ vreg = (st.attributes.map (fun a => regContrib env st.pk fd fda real0 a)).flatten
    ∧ (∀ k, k ∈ vattr ↔
        (dhas real0 k = true ∧ k ∉ st.attributes.map (fun a => a.pk)))
    ∧ handle_violations false vreg vreq vattr
        = (if vreg = [] ∧ vreq = [] ∧ vattr = [] then .ok ()
           else .error (.validationError vreg vreq vattr)) := by
  obtain ⟨hloop, hvattr⟩ := validation_stage_ok_inv env st fd fda real0 real1 vreg vreq vattr h
  obtain ⟨hr2, hr1, hpres, _⟩ :=
    attrLoop_ok_spec env st.pk fd fda st.attributes real0 [] [] real1 vreg vreq hnd hloop
  refine ⟨by simpa using hr2, by simpa using hr1, ?_, by simp [handle_violations]⟩
  intro k
  rw [hvattr]
  constructor
  · intro hk
    obtain ⟨hkeys, hpred⟩ := List.mem_filter.mp hk
    have hnotin : k ∉ st.attributes.map (fun a => a.pk) := by
      intro hin
      rw [List.mem_map] at hin
      obtain ⟨a, ha, hak⟩ := hin
      have hany : st.attributes.any (fun a => a.pk == k) = true :=
        List.any_eq_true.mpr ⟨a, ha, by simp [hak]⟩
      simp [hany] at hpred
    have hdh : dhas real1 k = true := (mem_keys_iff_dhas real1 k).mp hkeys
    unfold dhas at hdh
    rw [hpres k hnotin] at hdh
    exact ⟨hdh, hnotin⟩
  · intro hk
    obtain ⟨hdh, hnotin⟩ := hk
    apply List.mem_filter.mpr
    refine ⟨?_, ?_⟩
    · apply (mem_keys_iff_dhas real1 k).mpr
      show (dget real1 k).isSome = true
      rw [hpres k hnotin]
      exact hdh
    · cases hany : st.attributes.any (fun a => a.pk == k) with
      | false => simp
      | true =>
        obtain ⟨a, ha, hak⟩ := List.any_eq_true.mp hany
        rw [beq_iff_eq] at hak
        exact absurd (hak ▸ List.mem_map_of_mem (fun a => a.pk) ha) hnotin

/-- C7: a multi attribute's configured default is literally split on
commas with each piece independently type-cast under `force_single`
semantics, while a scalar default is type-cast once whole; on the pipeline
this is exactly the value a multi attribute absent from the input receives
from its non-empty default. -/
theorem c7_multi_default_comma_split (env : Env) (st : ServerType) (fd fda : Bool)
    (real0 real1 : AttrDict) (vreg vreq vattr : List String) (a : Attribute) (d : String)
    (hnd : (st.attributes.map (fun a => a.pk)).Nodup)
    (hmem : a ∈ st.attributes)
    (habs : dhas real0 a.pk = false)
    (h : validation_stage env st fd fda real0 = .ok (real1, vreg, vreq, vattr)) :
    (a.multi = true →
      type_cast_default env a d
        = .vlist ((splitComma d).map (fun s => env.typecastFS a s)))
    ∧ (a.multi = false → type_cast_default env a d = env.typecastFS a d)
    ∧ (a.multi = true → (env.stypeAttrs st.pk a.pk).default = some d → d ≠ "" →
      dget real1 a.pk
        = some (.vlist ((splitComma d).map (fun s => env.typecastFS a s)))) := by
  obtain ⟨hloop, _⟩ := validation_stage_ok_inv env st fd fda real0 real1 vreg vreq vattr h
  obtain ⟨_, _, _, hval⟩ :=
    attrLoop_ok_spec env st.pk fd fda st.attributes real0 [] [] real1 vreg vreq hnd hloop
  have hv := hval a hmem
  have hdg : dget real0 a.pk = none := by
    cases hx : dget real0 a.pk with
    | none => rfl
    | some w => unfold dhas at habs; rw [hx] at habs; simp at habs
  refine ⟨?_, ?_, ?_⟩
  · intro hm
    simp [type_cast_default, hm]
  · intro hm
    simp [type_cast_default, hm]
  · intro hm hsd hdne
    have hde : defaultEmpty (env.stypeAttrs st.pk a.pk).default = false := by
      rw [hsd]; simp [defaultEmpty, hdne]
    rw [hv]
    simp [valueOfAttr, hdg, hm, hde, hsd, getDef, type_cast_default, defaultEmpty, hdne]

/-- A servertype with a multi attribute without default, a required
scalar with a default, and an optional scalar with a default. -/
def stWeb : ServerType :=
  ⟨"web", [⟨"tags", "string", true⟩, ⟨"ram", "number", false⟩, ⟨"os", "string", false⟩]⟩

/-- A servertype with a multi attribute carrying a comma-separated
default. -/
def stDb : ServerType := ⟨"db", [⟨"ports", "number", true⟩]⟩

/-- The schema environment for the defaulting/validation executions. -/
def envWeb : Env :=
  ⟨[("web", stWeb), ("db", stDb)],
   fun stpk apk =>
     if stpk == "web" && apk == "ram" then ⟨true, some "2048", none⟩
     else if stpk == "web" && apk == "os" then ⟨false, some "linux", none⟩
     else if stpk == "db" && apk == "ports" then ⟨false, some "5432,5433", none⟩
     else ⟨false, none, none⟩,
   [⟨0, 10, "seg1"⟩],
   fun _ s => .str s,
   fun _ _ => true,
   fun _ => none⟩

theorem c5_witness :
    (stWeb.attributes.map (fun a => a.pk)).Nodup
    ∧ dget [("tags", Value.vlist [])] "tags" = some (.vlist [])
    ∧ (dget [("tags", Value.vlist [])] "ram" = none ∧ "ram" ∈ ["ram"]) :=
  ⟨by decide,
   (c5_defaulting envWeb stWeb false false [] [("tags", Value.vlist [])] [] ["ram"] []
      ⟨"tags", "string", true⟩ (by decide) (by decide) rfl rfl).1 rfl rfl,
   (c5_defaulting envWeb stWeb false false [] [("tags", Value.vlist [])] [] ["ram"] []
      ⟨"ram", "number", false⟩ (by decide) (by decide) rfl rfl).2.2.2.1 rfl rfl rfl⟩

theorem c6_witness :
    ["ram"] = (stWeb.attributes.filter
        (fun a => reqViolCond envWeb stWeb.pk false [] a)).map (fun a => a.pk)
    ∧ handle_violations false [] ["ram"] []
      = .error (.validationError [] ["ram"] []) :=
  ⟨(c6_violations_collected envWeb stWeb false false [] [("tags", Value.vlist [])]
      [] ["ram"] [] (by decide) rfl).1,
   Eq.trans
     ((c6_violations_collected envWeb stWeb false false [] [("tags", Value.vlist [])]
        [] ["ram"] [] (by decide) rfl).2.2.2) rfl⟩

theorem c7_witness :
    dget [("ports", Value.vlist [.str "5432", .str "5433"])] "ports"
      = some (.vlist [Value.str "5432", Value.str "5433"])
    ∧ type_cast_default envWeb ⟨"ports", "number", true⟩ "5432,5433"
      = .vlist [.str "5432", .str "5433"] :=
  ⟨(c7_multi_default_comma_split envWeb stDb false false []
      [("ports", Value.vlist [.str "5432", .str "5433"])] [] [] []
      ⟨"ports", "number", true⟩ "5432,5433" (by decide) (by decide) rfl rfl).2.2
      rfl rfl (by decide),
   (c7_multi_default_comma_split envWeb stDb false false []
      [("ports", Value.vlist [.str "5432", .str "5433"])] [] [] []
      ⟨"ports", "number", true⟩ "5432,5433" (by decide) (by decide) rfl rfl).1 rfl⟩

/-- C8: restoring a deleted object feeds the matching `Delete` snapshot
back into `create_server` with `skip_validation=true` (and no default
filling): when an object with the snapshot's hostname exists again the
restore fails with the duplicate-hostname `CommitError` and the store is
untouched; otherwise a new object is created from the snapshot's pipeline
attributes under a freshly generated id that collides with no existing
row. -/
theorem c8_restore (env : Env) (store : Store) (snaps : List AttrDict)
    (post : Option Value) (sobj : AttrDict) (rest : List AttrDict) (p : Prepared)
    (hfind : findDeleted snaps post = sobj :: rest)
    (hprep : prepare env sobj true false false = .ok p) :
    ((store.servers.any (fun s => s.hostname == p.hostname)) = true →
      restore_deleted env store snaps post
        = (store, .caughtError "Server with that hostname already exists"))
    ∧ ((store.servers.any (fun s => s.hostname == p.hostname)) = false →
      restore_deleted env store snaps post
        = (⟨store.servers ++ [⟨newId store, p.hostname, p.intern_ip, p.project_id,
              p.servertype_id, p.segment_id, p.real_attributes⟩],
            store.commits ++ [newCommitId store],
            store.changeAdds ++ [⟨newCommitId store, p.hostname,
              dset (dset p.real_attributes "hostname" p.hostname)
                "intern_ip" p.intern_ip⟩]⟩,
           .restored)
      ∧ ∀ s ∈ store.servers, s.server_id ≠ newId store) := by
  constructor
  · intro hcol
    unfold restore_deleted
    rw [hfind]
    dsimp only
    unfold create_server
    rw [hprep]
    simp only [hcol, if_true]
  · intro hcol
    refine ⟨?_, newId_fresh store⟩
    unfold restore_deleted
    rw [hfind]
    dsimp only
    unfold create_server
    rw [hprep]
    simp only [hcol, Bool.false_eq_true, if_false, noFail]
    rfl

/-- C10: on a successful create, the snapshot written into the `Add`
change record is exactly the post-defaulting attribute set with the
hostname and the typed internal IP added; the servertype, segment and
project identity fields are absent from it. -/
theorem c10_add_snapshot (env : Env) (store : Store) (attrs : AttrDict)
    (sv fd fda : Bool) (idn : IdentityInfo) (real1 : AttrDict)
    (vreg vreq vattr : List String)
    (hid : prepare_identity env attrs = .ok idn)
    (hvs : validation_stage env idn.servertype fd fda (stripKeys attrs)
            = .ok (real1, vreg, vreq, vattr))
    (hhv : handle_violations sv vreg vreq vattr = .ok ())
    (hnd : (idn.servertype.attributes.map (fun a => a.pk)).Nodup)
    (hst : "servertype" ∉ idn.servertype.attributes.map (fun a => a.pk))
    (hsg : "segment" ∉ idn.servertype.attributes.map (fun a => a.pk))
    (hpj : "project" ∉ idn.servertype.attributes.map (fun a => a.pk))
    (hcol : store.servers.any (fun s => s.hostname == idn.hostname) = false) :
    (create_server env noFail store attrs sv fd fda).2 = .ok (newId store)
    ∧ (create_server env noFail store attrs sv fd fda).1.changeAdds
      = store.changeAdds ++ [⟨newCommitId store, idn.hostname,
          dset (dset real1 "hostname" idn.hostname) "intern_ip" idn.intern_ip⟩]
    ∧ dget (dset (dset real1 "hostname" idn.hostname) "intern_ip" idn.intern_ip)
        "hostname" = some idn.hostname
    ∧ dget (dset (dset real1 "hostname" idn.hostname) "intern_ip" idn.intern_ip)
        "intern_ip" = some idn.intern_ip
    ∧ (∃ n, idn.intern_ip = .ip n)
    ∧ dget (dset (dset real1 "hostname" idn.hostname) "intern_ip" idn.intern_ip)
        "servertype" = none
    ∧ dget (dset (dset real1 "hostname" idn.hostname) "intern_ip" idn.intern_ip)
        "segment" = none
    ∧ dget (dset (dset real1 "hostname" idn.hostname) "intern_ip" idn.intern_ip)
        "project" = none
    ∧ (∀ k, k ≠ "hostname" → k ≠ "intern_ip" →
        dget (dset (dset real1 "hostname" idn.hostname) "intern_ip" idn.intern_ip) k
          = dget real1 k) := by
  have hprep : prepare env attrs sv fd fda
      = .ok ⟨idn.hostname, idn.intern_ip, idn.segment_id, idn.servertype.pk,
          idn.project_id, real1⟩ :=
    prepare_of_stages env attrs sv fd fda idn real1 vreg vreq vattr hid hvs hhv
  obtain ⟨hloopEq, _⟩ :=
    validation_stage_ok_inv env idn.servertype fd fda (stripKeys attrs) real1
      vreg vreq vattr hvs
  obtain ⟨_, _, hpres, _⟩ :=
    attrLoop_ok_spec env idn.servertype.pk fd fda idn.servertype.attributes
      (stripKeys attrs) [] [] real1 vreg vreq hnd hloopEq
  obtain ⟨sk1, sk2, sk3, sk4, sk5, sk6⟩ := dget_stripKeys_identity attrs
  have hsnapK : ∀ k, k ≠ "hostname" → k ≠ "intern_ip" →
      dget (dset (dset real1 "hostname" idn.hostname) "intern_ip" idn.intern_ip) k
        = dget real1 k := by
    intro k h1 h2
    rw [dget_dset_ne _ _ _ _ h2, dget_dset_ne _ _ _ _ h1]
  refine ⟨?_, ?_, ?_, ?_, prepare_identity_ip_typed env attrs idn hid, ?_, ?_, ?_, hsnapK⟩
  · unfold create_server
    rw [hprep]
    simp only [hcol, Bool.false_eq_true, if_false, noFail]
  · unfold create_server
    rw [hprep]
    simp only [hcol, Bool.false_eq_true, if_false, noFail]
    rfl
  · rw [dget_dset_ne _ _ _ _ (by decide), dget_dset_self]
  · rw [dget_dset_self]
  · rw [hsnapK "servertype" (by decide) (by decide), hpres "servertype" hst, sk4]
  · rw [hsnapK "segment" (by decide) (by decide), hpres "segment" hsg, sk5]
  · rw [hsnapK "project" (by decide) (by decide), hpres "project" hpj, sk6]

/-- A `Delete` snapshot for `b.example` as stored in the audit trail. -/
def snapB : AttrDict :=
  [("hostname", .str "b.example"), ("servertype", .str "vm"),
   ("project", .str "p1"), ("intern_ip", .ip 5), ("segment", .str "seg1")]

/-- What the pipeline prepares from `snapB`. -/
def pB : Prepared :=
  ⟨.str "b.example", .ip 5, .str "seg1", "vm", some (.str "p1"), []⟩

/-- A store in which `b.example` already exists again. -/
def storeB : Store :=
  ⟨[⟨7, .str "b.example", .ip 5, some (.str "p1"), "vm", .str "seg1", []⟩], [], []⟩

theorem c8_witness :
    findDeleted [snapB] (some (.str "b.example")) = [snapB]
    ∧ prepare envVm snapB true false false = .ok pB
    ∧ (storeB.servers.any (fun s => s.hostname == pB.hostname)) = true
    ∧ restore_deleted envVm storeB [snapB] (some (.str "b.example"))
      = (storeB, .caughtError "Server with that hostname already exists") :=
  ⟨rfl, rfl, rfl,
   (c8_restore envVm storeB [snapB] (some (.str "b.example")) snapB [] pB rfl rfl).1 rfl⟩

theorem c10_witness :
    (create_server envVm noFail emptyStore attrsC1 false false false).2 = .ok 1
    ∧ dget (dset (dset ([] : AttrDict) "hostname" (.str "a.example"))
        "intern_ip" (.ip 5)) "servertype" = none
    ∧ (create_server envVm noFail emptyStore attrsC1 false false false).1.changeAdds
      = [⟨1, .str "a.example",
          dset (dset ([] : AttrDict) "hostname" (.str "a.example")) "intern_ip" (.ip 5)⟩] :=
  ⟨(c10_add_snapshot envVm emptyStore attrsC1 false false false
      ⟨.str "a.example", .ip 5, .str "seg1", ⟨"vm", []⟩, some (.str "p1")⟩ [] [] [] []
      rfl rfl rfl (by decide) (by decide) (by decide) (by decide) rfl).1,
   (c10_add_snapshot envVm emptyStore attrsC1 false false false
      ⟨.str "a.example", .ip 5, .str "seg1", ⟨"vm", []⟩, some (.str "p1")⟩ [] [] [] []
      rfl rfl rfl (by decide) (by decide) (by decide) (by decide) rfl).2.2.2.2.2.1,
   (c10_add_snapshot envVm emptyStore attrsC1 false false false
      ⟨.str "a.example", .ip 5, .str "seg1", ⟨"vm", []⟩, some (.str "p1")⟩ [] [] [] []
      rfl rfl rfl (by decide) (by decide) (by decide) (by decide) rfl).2.1⟩

end Serveradmin
